import Mathlib

/-!
Shallow embedding of the ProfitPilot payment-webhook backend (`src/main.py`).

The embedding models the webhook pipeline (`handle_webhook`), the two access
grantors (`give_telegram_access`, `give_discord_access`), the notification
fanout (`send_telegram_message`, `send_discord_message`), the in-memory
entitlement ledger (`active_users`) and the deactivation route
(`deactivate_user`).

External effects (Telegram API calls, Discord API calls) are modelled by an
environment `Env` fixing the outcome of each external call: success, a
`TelegramError` (which the Python code catches), a missing Discord channel or
guild (which the code branches on), or an uncaught exception raised by
`channel.send` / `channel.create_invite` (which the code does not catch).
Every external call and log line that matters to the observable behaviour is
recorded in an event trace.  Python floats carry no arithmetic here, so they
are modelled as rationals.
-/

namespace ProfitPilot

/-- A JSON value as far as the webhook payload is concerned: the model's
fields are strings and floats, so only these two kinds are relevant. -/
inductive JVal where
  | jstr (s : String)
  | jnum (q : ℚ)
deriving DecidableEq

/-- The raw (untyped) JSON body of a webhook request: each field of the
`NowPaymentsWebhook` pydantic model is either absent or some JSON value. -/
structure RawPayload where
  payment_status : Option JVal
  price_amount : Option JVal
  pay_address : Option JVal
  order_id : Option JVal
  payment_id : Option JVal
  ipn_type : Option JVal
  payment_amount : Option JVal
  payment_currency : Option JVal
  order_description : Option JVal
deriving DecidableEq

/-- The validated pydantic model `NowPaymentsWebhook` (src/main.py lines 39-48). -/
structure NowPaymentsWebhook where
  payment_status : String
  price_amount : ℚ
  pay_address : String
  order_id : String
  payment_id : String
  ipn_type : String
  payment_amount : ℚ
  payment_currency : String
  order_description : String
deriving DecidableEq

/-- Reads a string-typed field: present and a string, else validation fails. -/
def asStr : Option JVal → Option String
  | some (JVal.jstr s) => some s
  | _ => none

/-- Reads a float-typed field: present and a number, else validation fails. -/
def asNum : Option JVal → Option ℚ
  | some (JVal.jnum q) => some q
  | _ => none

/-- Validation performed by `NowPaymentsWebhook(**data)`: every field must be present with the declared
type, otherwise pydantic raises a `ValidationError`. -/
def validate (raw : RawPayload) : Option NowPaymentsWebhook := do
  let ps ← asStr raw.payment_status
  let pra ← asNum raw.price_amount
  let addr ← asStr raw.pay_address
  let oid ← asStr raw.order_id
  let pid ← asStr raw.payment_id
  let ipn ← asStr raw.ipn_type
  let pya ← asNum raw.payment_amount
  let cur ← asStr raw.payment_currency
  let od ← asStr raw.order_description
  pure ⟨ps, pra, addr, oid, pid, ipn, pya, cur, od⟩

/-- A value of the `active_users` dict: `{"paid": True, "timestamp": ...}`. -/
structure EntRecord where
  paid : Bool
  timestamp : ℚ
deriving DecidableEq

/-- The `active_users` in-memory ledger, as a finite-support map from
subject identifier (email) to record. -/
def Ledger : Type := String → Option EntRecord

/-- The initial state `active_users = {}`. -/
def emptyLedger : Ledger := fun _ => none

/-- Dict assignment `active_users[email] = record` (last write wins). -/
def Ledger.upsert (st : Ledger) (k : String) (r : EntRecord) : Ledger :=
  fun k2 => if k2 = k then some r else st k2

/-- Deletion `del active_users[email]`. -/
def Ledger.remove (st : Ledger) (k : String) : Ledger :=
  fun k2 => if k2 = k then none else st k2

/-- Outcome of a call into the Telegram client library: success, or a raised
`TelegramError` (the only exception type the Python code catches). -/
inductive TgOutcome where
  | ok
  | tgError
deriving DecidableEq

/-- The external world as the handler observes it: the outcome of each
external call made while processing one request. -/
structure Env where
  /-- outcome of `telegram_bot.send_message` in `send_telegram_message` -/
  tgSendMsg : TgOutcome
  /-- outcome of `telegram_bot.unban_chat_member` in `give_telegram_access` -/
  tgUnban : TgOutcome
  /-- whether `discord_bot.get_channel(DISCORD_CHANNEL_ID)` finds the channel -/
  dcMsgChannelFound : Bool
  /-- whether `channel.send(message)` raises (uncaught in the Python code) -/
  dcSendRaises : Bool
  /-- whether `discord.utils.get(discord_bot.guilds, id=DISCORD_GUILD_ID)` finds the guild -/
  dcGuildFound : Bool
  /-- whether `guild.get_channel(DISCORD_CHANNEL_ID)` finds the channel -/
  dcGuildChannelFound : Bool
  /-- whether `channel.create_invite(...)` raises (uncaught in the Python code) -/
  dcInviteRaises : Bool
deriving DecidableEq

/-- Observable events: external calls performed and error/info log lines. -/
inductive Event where
  | tgSendCall
  | tgSendErrorLogged
  | dcSendCall
  | dcChannelNotFoundLogged
  | resolveCall (email : String)
  | tgUnbanCall (userId : ℕ)
  | tgGrantErrorLogged
  | dcGetGuildCall
  | dcCreateInviteCall
  | dcInviteUrlLogged
  | dcGrantChannelNotFoundLogged
  | ledgerWrite (email : String)
deriving DecidableEq

/-- Exceptions that can reach `handle_webhook`'s blanket `except Exception`. -/
inductive Exn where
  | validationError
  | discordSendError
  | discordInviteError
deriving DecidableEq

/-- The string `str(e)` for each exception reaching the blanket handler; the pydantic
validation message is textually distinct from the Discord client messages. -/
def Exn.message : Exn → String
  | Exn.validationError => "validation error for NowPaymentsWebhook"
  | Exn.discordSendError => "discord send failed"
  | Exn.discordInviteError => "discord invite creation failed"

/-- JSON body of an HTTP response produced by the routes under study. -/
inductive RBody where
  | received
  | errorBody (msg : String)
  | removed
  | notFoundDetail (msg : String)
deriving DecidableEq

/-- An HTTP response: status code plus JSON body. -/
structure Response where
  status_code : ℕ
  body : RBody
deriving DecidableEq

/-- The `JSONResponse(content={"error": str(e)}, status_code=500)` branch. -/
def errorResponse (e : Exn) : Response := ⟨500, RBody.errorBody e.message⟩

/-- Embeds `send_telegram_message` (src/main.py lines 57-65): sends via the Telegram
client and catches `TelegramError`, logging it; never raises. -/
def send_telegram_message (env : Env) : List Event :=
  match env.tgSendMsg with
  | TgOutcome.ok => [Event.tgSendCall]
  | TgOutcome.tgError => [Event.tgSendCall, Event.tgSendErrorLogged]

/-- Embeds `get_telegram_user_id` (src/main.py lines 67-69): a hardcoded stub. -/
def get_telegram_user_id (_email : String) : ℕ := 123456789

/-- Embeds `give_telegram_access` (src/main.py lines 71-80): resolves the user id,
calls `unban_chat_member`, and catches `TelegramError`; never raises. -/
def give_telegram_access (env : Env) (user_email : String) : List Event :=
  let uid := get_telegram_user_id user_email
  match env.tgUnban with
  | TgOutcome.ok => [Event.resolveCall user_email, Event.tgUnbanCall uid]
  | TgOutcome.tgError =>
      [Event.resolveCall user_email, Event.tgUnbanCall uid, Event.tgGrantErrorLogged]

/-- Embeds `send_discord_message` (src/main.py lines 94-101): if the channel is
found, `channel.send` is awaited with no exception handling, so a raise
propagates; a missing channel is only logged. -/
def send_discord_message (env : Env) : List Event × Option Exn :=
  if env.dcMsgChannelFound then
    if env.dcSendRaises then ([Event.dcSendCall], some Exn.discordSendError)
    else ([Event.dcSendCall], none)
  else ([Event.dcChannelNotFoundLogged], none)

/-- Embeds `give_discord_access` (src/main.py lines 103-110): looks up guild and
channel; if found, `create_invite` is awaited with no exception handling, so
a raise propagates; a missing guild/channel is only logged. -/
def give_discord_access (env : Env) (_user_email : String) : List Event × Option Exn :=
  if env.dcGuildFound && env.dcGuildChannelFound then
    if env.dcInviteRaises then
      ([Event.dcGetGuildCall, Event.dcCreateInviteCall], some Exn.discordInviteError)
    else
      ([Event.dcGetGuildCall, Event.dcCreateInviteCall, Event.dcInviteUrlLogged], none)
  else ([Event.dcGetGuildCall, Event.dcGrantChannelNotFoundLogged], none)

/-- Result of one webhook invocation: new ledger, event trace, HTTP response. -/
structure HandleResult where
  ledger : Ledger
  trace : List Event
  response : Response

/-- Embeds `handle_webhook` (src/main.py lines 139-168).  `now` is the value of
`asyncio.get_event_loop().time()` during this invocation.  Control flow of
the source: parse and validate (a `ValidationError` falls through to the
blanket `except` and yields a 500); send the fanout messages (a raise from
the Discord send also falls through to the 500 branch); if the status is
`"confirmed"`, grant Telegram access, grant Discord access (a raise from
invite creation falls through to the 500 branch), then write the ledger;
finally return 200 `{"status": "received"}`. -/
def handle_webhook (env : Env) (now : ℚ) (raw : RawPayload) (st : Ledger) :
    HandleResult :=
  match validate raw with
  | none => ⟨st, [], errorResponse Exn.validationError⟩
  | some w =>
      let ev1 := send_telegram_message env
      match send_discord_message env with
      | (ev2, some e) => ⟨st, ev1 ++ ev2, errorResponse e⟩
      | (ev2, none) =>
          if w.payment_status = "confirmed" then
            let ev3 := give_telegram_access env w.order_description
            match give_discord_access env w.order_description with
            | (ev4, some e) => ⟨st, ev1 ++ ev2 ++ ev3 ++ ev4, errorResponse e⟩
            | (ev4, none) =>
                ⟨st.upsert w.order_description ⟨true, now⟩,
                 ev1 ++ ev2 ++ ev3 ++ ev4 ++ [Event.ledgerWrite w.order_description],
                 ⟨200, RBody.received⟩⟩
          else ⟨st, ev1 ++ ev2, ⟨200, RBody.received⟩⟩

/-- Result of one deactivation request: new ledger and HTTP response. -/
structure DeactivateResult where
  ledger : Ledger
  response : Response

/-- Embeds `deactivate_user` (src/main.py lines 170-177): 404 when the email is not
in `active_users`, otherwise delete the entry and return `{"status":"removed"}`. -/
def deactivate_user (email : String) (st : Ledger) : DeactivateResult :=
  match st email with
  | none => ⟨st, ⟨404, RBody.notFoundDetail "User not found"⟩⟩
  | some _ => ⟨st.remove email, ⟨200, RBody.removed⟩⟩

/-- Events that belong to identity resolution, the access grantors or the
ledger write (as opposed to the fanout sinks). -/
def grantOrLedgerEvent : Event → Bool
  | Event.resolveCall _ => true
  | Event.tgUnbanCall _ => true
  | Event.tgGrantErrorLogged => true
  | Event.dcGetGuildCall => true
  | Event.dcCreateInviteCall => true
  | Event.dcInviteUrlLogged => true
  | Event.dcGrantChannelNotFoundLogged => true
  | Event.ledgerWrite _ => true
  | _ => false

/-- Every key the ledger holds maps to a record with `paid = true`. -/
def ledgerInvariant (st : Ledger) : Prop :=
  ∀ k r, st k = some r → r.paid = true

/-- Ledger states reachable from the initial empty `active_users` by any
sequence of webhook invocations and deactivation requests. -/
inductive Reachable : Ledger → Prop where
  | init : Reachable emptyLedger
  | webhook (env : Env) (now : ℚ) (raw : RawPayload) {st : Ledger} :
      Reachable st → Reachable (handle_webhook env now raw st).ledger
  | deactivate (email : String) {st : Ledger} :
      Reachable st → Reachable (deactivate_user email st).ledger

/-- Which ledger key (if any) one webhook invocation writes; derived
bookkeeping used to factor the proofs, not part of the source. -/
def ledgerAction (env : Env) (raw : RawPayload) : Option String :=
  match validate raw with
  | none => none
  | some w =>
      if env.dcMsgChannelFound && env.dcSendRaises then none
      else if w.payment_status = "confirmed" then
        if env.dcGuildFound && env.dcGuildChannelFound && env.dcInviteRaises then none
        else some w.order_description
      else none

/-- A raw payload with every field present and well-typed. -/
def mkRaw (status email : String) : RawPayload :=
  ⟨some (JVal.jstr status), some (JVal.jnum 50), some (JVal.jstr "addr1"),
   some (JVal.jstr "order1"), some (JVal.jstr "pay1"), some (JVal.jstr "sale"),
   some (JVal.jnum 50), some (JVal.jstr "usd"), some (JVal.jstr email)⟩

/-- The validated model `mkRaw` produces. -/
def mkWebhook (status email : String) : NowPaymentsWebhook :=
  ⟨status, 50, "addr1", "order1", "pay1", "sale", 50, "usd", email⟩

/-- A confirmed payload for the given subject. -/
def confirmedRaw (email : String) : RawPayload := mkRaw "confirmed" email

/-- A payload whose `order_description` field is absent. -/
def missingDescRaw : RawPayload :=
  ⟨some (JVal.jstr "confirmed"), some (JVal.jnum 50), some (JVal.jstr "addr1"),
   some (JVal.jstr "order1"), some (JVal.jstr "pay1"), some (JVal.jstr "sale"),
   some (JVal.jnum 50), some (JVal.jstr "usd"), none⟩

/-- An environment in which every external call succeeds. -/
def okEnv : Env := ⟨TgOutcome.ok, TgOutcome.ok, true, false, true, true, false⟩

/-- Every call succeeds except that `create_invite` raises. -/
def inviteRaiseEnv : Env := ⟨TgOutcome.ok, TgOutcome.ok, true, false, true, true, true⟩

/-- Every call succeeds except that the Discord `channel.send` raises. -/
def sinkRaiseEnv : Env := ⟨TgOutcome.ok, TgOutcome.ok, true, true, true, true, false⟩

/-- Telegram calls fail with `TelegramError` and the Discord guild lookup
fails; no uncaught exception occurs. -/
def degradedEnv : Env := ⟨TgOutcome.tgError, TgOutcome.tgError, false, false, false, false, false⟩

theorem Ledger.upsert_upsert_same (st : Ledger) (k : String) (r1 r2 : EntRecord) :
    (st.upsert k r1).upsert k r2 = st.upsert k r2 := by
  funext k2
  unfold Ledger.upsert
  by_cases h : k2 = k <;> simp [h]

theorem handle_webhook_ledger_eq (env : Env) (now : ℚ) (raw : RawPayload) (st : Ledger) :
    (handle_webhook env now raw st).ledger =
      match ledgerAction env raw with
      | none => st
      | some email => st.upsert email ⟨true, now⟩ := by
  obtain ⟨e1, e2, e3, e4, e5, e6, e7⟩ := env
  cases hv : validate raw with
  | none => simp [handle_webhook, ledgerAction, hv]
  | some w =>
      cases e3 <;> cases e4 <;> cases e5 <;> cases e6 <;> cases e7 <;>
        by_cases hc : w.payment_status = "confirmed" <;>
          simp [handle_webhook, ledgerAction, hv, send_discord_message,
            give_discord_access, hc]

theorem handle_webhook_st_indep (env : Env) (now : ℚ) (raw : RawPayload)
    (st st' : Ledger) :
    (handle_webhook env now raw st).trace = (handle_webhook env now raw st').trace ∧
    (handle_webhook env now raw st).response = (handle_webhook env now raw st').response := by
  obtain ⟨e1, e2, e3, e4, e5, e6, e7⟩ := env
  cases hv : validate raw with
  | none => simp [handle_webhook, hv]
  | some w =>
      cases e3 <;> cases e4 <;> cases e5 <;> cases e6 <;> cases e7 <;>
        by_cases hc : w.payment_status = "confirmed" <;>
          simp [handle_webhook, hv, send_discord_message, give_discord_access, hc]

theorem none_bind_eq {α β : Type} (f : α → Option β) :
    ((none : Option α) >>= f) = none := rfl

theorem bind_const_none {α β : Type} (x : Option α) :
    (x >>= fun _ => (none : Option β)) = none := by cases x <;> rfl

theorem validate_missing_desc (raw : RawPayload) (h : raw.order_description = none) :
    validate raw = none := by
  simp only [validate, h, asStr, none_bind_eq, bind_const_none]

/-- Claim C3: every malformed inbound payload (a required field missing or of
the wrong type, i.e. pydantic validation fails) is rejected before any
grantor call, fanout message or ledger write: the ledger is returned
unchanged, the event trace is empty, and the handler returns the rejection
response. -/
theorem malformed_rejected_no_side_effects (env : Env) (now : ℚ)
    (raw : RawPayload) (st : Ledger) (h : validate raw = none) :
    handle_webhook env now raw st = ⟨st, [], errorResponse Exn.validationError⟩ := by
  simp [handle_webhook, h]

theorem malformed_rejected_no_side_effects_witness :
    validate missingDescRaw = none ∧
    handle_webhook okEnv 0 missingDescRaw emptyLedger
      = ⟨emptyLedger, [], errorResponse Exn.validationError⟩ :=
  ⟨rfl, malformed_rejected_no_side_effects okEnv 0 missingDescRaw emptyLedger rfl⟩

/-- Claim C2: processing the same confirmed notification twice (at delivery
times `t1` then `t2`, with the external world behaving the same) leaves the
ledger in a state identical to the state after processing it once: the
duplicate upsert is last-write-wins, so the resulting entitlement record for
the subject is the same, and the response is also the same. -/
theorem duplicate_confirmed_processing_idempotent (env : Env) (t1 t2 : ℚ)
    (raw : RawPayload) (st : Ledger) (w : NowPaymentsWebhook)
    (_hv : validate raw = some w) (_hc : w.payment_status = "confirmed") :
    (handle_webhook env t2 raw (handle_webhook env t1 raw st).ledger).ledger
      = (handle_webhook env t2 raw st).ledger ∧
    (handle_webhook env t2 raw (handle_webhook env t1 raw st).ledger).response
      = (handle_webhook env t2 raw st).response := by
  constructor
  · simp only [handle_webhook_ledger_eq]
    cases ha : ledgerAction env raw with
    | none => rfl
    | some e => simp [Ledger.upsert_upsert_same]
  · exact (handle_webhook_st_indep env t2 raw _ st).2

theorem duplicate_confirmed_processing_idempotent_witness :
    validate (confirmedRaw "alice@example.com")
        = some (mkWebhook "confirmed" "alice@example.com") ∧
    (mkWebhook "confirmed" "alice@example.com").payment_status = "confirmed" ∧
    ((handle_webhook okEnv 1 (confirmedRaw "alice@example.com")
        (handle_webhook okEnv 0 (confirmedRaw "alice@example.com") emptyLedger).ledger).ledger
      = (handle_webhook okEnv 1 (confirmedRaw "alice@example.com") emptyLedger).ledger ∧
     (handle_webhook okEnv 1 (confirmedRaw "alice@example.com")
        (handle_webhook okEnv 0 (confirmedRaw "alice@example.com") emptyLedger).ledger).response
      = (handle_webhook okEnv 1 (confirmedRaw "alice@example.com") emptyLedger).response) :=
  ⟨rfl, rfl,
   duplicate_confirmed_processing_idempotent okEnv 0 1 (confirmedRaw "alice@example.com")
     emptyLedger (mkWebhook "confirmed" "alice@example.com") rfl rfl⟩

/-- Claim C10: in every ledger state reachable by any sequence of
webhook-handler and deactivation operations from the initial empty state,
every key present in the ledger maps to a record with `paid = true`; both
mutating operations (the confirmed-payment upsert and the deactivation
removal) preserve this invariant. -/
theorem reachable_ledger_all_paid (st : Ledger) (h : Reachable st) :
    ledgerInvariant st := by
  induction h with
  | init => intro k r hk; simp [emptyLedger] at hk
  | webhook env now raw _hr ih =>
      intro k r hk
      rw [handle_webhook_ledger_eq] at hk
      cases ha : ledgerAction env raw with
      | none => rw [ha] at hk; exact ih k r hk
      | some e =>
          rw [ha] at hk
          simp only [Ledger.upsert] at hk
          by_cases hke : k = e
          · rw [if_pos hke] at hk
            injection hk with h2
            rw [← h2]
          · rw [if_neg hke] at hk
            exact ih k r hk
  | deactivate email _hr ih =>
      intro k r hk
      unfold deactivate_user at hk
      split at hk
      · exact ih k r hk
      · simp only [Ledger.remove] at hk
        by_cases hke : k = email
        · rw [if_pos hke] at hk
          exact absurd hk (by simp)
        · rw [if_neg hke] at hk
          exact ih k r hk

theorem reachable_ledger_all_paid_witness :
    ledgerInvariant
      (handle_webhook okEnv 0 (confirmedRaw "alice@example.com") emptyLedger).ledger :=
  reachable_ledger_all_paid _
    (Reachable.webhook okEnv 0 (confirmedRaw "alice@example.com") Reachable.init)

/-- Claim C1 counterexample: the syntactically valid confirmed notification
for "alice@example.com", processed while the Discord invite creation raises
(a Guild-Channel grantor failure), leaves NO ledger entry for the subject:
the exception propagates to the blanket handler, the ledger write on the
line after the grantor calls is skipped, and a 500 is returned. -/
theorem confirmed_grant_failure_skips_ledger_cex :
    validate (confirmedRaw "alice@example.com")
        = some (mkWebhook "confirmed" "alice@example.com") ∧
    (mkWebhook "confirmed" "alice@example.com").payment_status = "confirmed" ∧
    (handle_webhook inviteRaiseEnv 0 (confirmedRaw "alice@example.com") emptyLedger).ledger
        "alice@example.com" = none ∧
    (handle_webhook inviteRaiseEnv 0 (confirmedRaw "alice@example.com") emptyLedger).response
        = errorResponse Exn.discordInviteError :=
  ⟨rfl, rfl, rfl, rfl⟩

/-- Claim C1 amended: for every syntactically valid confirmed notification,
the ledger contains the subject with `paid = true` after processing,
regardless of the Telegram grantor outcome (its `TelegramError` is caught)
and of a missing Discord guild or channel (only logged) — provided no
uncaught exception is raised, i.e. the Discord fanout send does not raise
and the Discord invite creation does not raise; either raise aborts the
handler before the ledger write. -/
theorem confirmed_writes_ledger_unless_uncaught_raise
    (env : Env) (now : ℚ) (raw : RawPayload) (st : Ledger) (w : NowPaymentsWebhook)
    (hv : validate raw = some w) (hc : w.payment_status = "confirmed")
    (hsend : ¬(env.dcMsgChannelFound = true ∧ env.dcSendRaises = true))
    (hinvite : ¬(env.dcGuildFound = true ∧ env.dcGuildChannelFound = true ∧
        env.dcInviteRaises = true)) :
    (handle_webhook env now raw st).ledger w.order_description = some ⟨true, now⟩ := by
  rw [handle_webhook_ledger_eq]
  have ha : ledgerAction env raw = some w.order_description := by
    unfold ledgerAction
    rw [hv]
    obtain ⟨e1, e2, e3, e4, e5, e6, e7⟩ := env
    cases e3 <;> cases e4 <;> cases e5 <;> cases e6 <;> cases e7 <;> simp_all
  rw [ha]
  simp [Ledger.upsert]

theorem confirmed_writes_ledger_unless_uncaught_raise_witness :
    validate (confirmedRaw "bob@example.com")
        = some (mkWebhook "confirmed" "bob@example.com") ∧
    (mkWebhook "confirmed" "bob@example.com").payment_status = "confirmed" ∧
    (handle_webhook degradedEnv 2 (confirmedRaw "bob@example.com") emptyLedger).ledger
        "bob@example.com" = some ⟨true, 2⟩ :=
  ⟨rfl, rfl,
   confirmed_writes_ledger_unless_uncaught_raise degradedEnv 2
     (confirmedRaw "bob@example.com") emptyLedger (mkWebhook "confirmed" "bob@example.com")
     rfl rfl (by decide) (by decide)⟩

/-- Claim C7 counterexample: the payload with `order_description` absent is a
schema validation failure, yet the handler's response has status code 500
(the blanket `except Exception` branch), not a 4xx-class code. -/
theorem validation_failure_returns_500_cex :
    validate missingDescRaw = none ∧
    (handle_webhook okEnv 0 missingDescRaw emptyLedger).response.status_code = 500 :=
  ⟨rfl, rfl⟩

/-- Claim C7 amended: a schema validation failure produces the same 500-class
JSON error response as an unexpected internal error; the two cases are
distinguishable only through the error-message string carried in the body,
never by status class. -/
theorem validation_failure_same_class_as_internal (env : Env) (now : ℚ)
    (raw : RawPayload) (st : Ledger) (h : validate raw = none) :
    (handle_webhook env now raw st).response
        = ⟨500, RBody.errorBody (Exn.message Exn.validationError)⟩ ∧
    Exn.message Exn.validationError ≠ Exn.message Exn.discordSendError ∧
    Exn.message Exn.validationError ≠ Exn.message Exn.discordInviteError := by
  refine ⟨?_, by decide, by decide⟩
  unfold handle_webhook
  rw [h]
  rfl

theorem validation_failure_same_class_as_internal_witness :
    validate missingDescRaw = none ∧
    (handle_webhook okEnv 0 missingDescRaw emptyLedger).response
        = ⟨500, RBody.errorBody (Exn.message Exn.validationError)⟩ :=
  ⟨rfl,
   (validation_failure_same_class_as_internal okEnv 0 missingDescRaw emptyLedger rfl).1⟩

/-- Claim C8 counterexample: for the confirmed notification for
"alice@example.com" with every external call succeeding, the event trace
shows the fanout messages (Telegram send, Discord send) are performed FIRST,
before identity resolution and both grantors, and the ledger write is last —
contradicting the claimed order (resolution, grantors, fanout, ledger). -/
theorem pipeline_order_fanout_first_cex :
    (handle_webhook okEnv 0 (confirmedRaw "alice@example.com") emptyLedger).trace
      = [Event.tgSendCall, Event.dcSendCall,
         Event.resolveCall "alice@example.com", Event.tgUnbanCall 123456789,
         Event.dcGetGuildCall, Event.dcCreateInviteCall, Event.dcInviteUrlLogged,
         Event.ledgerWrite "alice@example.com"] :=
  rfl

/-- Claim C8 amended: for every confirmed notification whose external calls
all succeed, the pipeline performs its calls in the order: Notification
Fanout broadcast (group-message sink then guild-channel sink), then identity
resolution, then the Group-Channel grantor, then the Guild-Channel grantor,
then the Entitlement Ledger write. -/
theorem pipeline_call_order (env : Env) (now : ℚ) (raw : RawPayload) (st : Ledger)
    (w : NowPaymentsWebhook)
    (hv : validate raw = some w) (hc : w.payment_status = "confirmed")
    (h1 : env.tgSendMsg = TgOutcome.ok) (h2 : env.dcMsgChannelFound = true)
    (h3 : env.dcSendRaises = false) (h4 : env.tgUnban = TgOutcome.ok)
    (h5 : env.dcGuildFound = true) (h6 : env.dcGuildChannelFound = true)
    (h7 : env.dcInviteRaises = false) :
    (handle_webhook env now raw st).trace
      = [Event.tgSendCall, Event.dcSendCall,
         Event.resolveCall w.order_description,
         Event.tgUnbanCall (get_telegram_user_id w.order_description),
         Event.dcGetGuildCall, Event.dcCreateInviteCall, Event.dcInviteUrlLogged,
         Event.ledgerWrite w.order_description] := by
  obtain ⟨e1, e2, e3, e4, e5, e6, e7⟩ := env
  simp_all [handle_webhook, send_telegram_message, send_discord_message,
    give_telegram_access, give_discord_access]

theorem pipeline_call_order_witness :
    validate (confirmedRaw "carol@example.com")
        = some (mkWebhook "confirmed" "carol@example.com") ∧
    (handle_webhook okEnv 3 (confirmedRaw "carol@example.com") emptyLedger).trace
      = [Event.tgSendCall, Event.dcSendCall,
         Event.resolveCall "carol@example.com", Event.tgUnbanCall 123456789,
         Event.dcGetGuildCall, Event.dcCreateInviteCall, Event.dcInviteUrlLogged,
         Event.ledgerWrite "carol@example.com"] :=
  ⟨rfl,
   pipeline_call_order okEnv 3 (confirmedRaw "carol@example.com") emptyLedger
     (mkWebhook "confirmed" "carol@example.com") rfl rfl rfl rfl rfl rfl rfl rfl rfl⟩

/-- Claim C4 counterexample: the syntactically valid notification with status
"waiting", processed while the Discord fanout channel send raises, makes the
handler return the 500 error response instead of a success acknowledgment
(the ledger is still unchanged and no grantor is invoked). -/
theorem nonconfirmed_sink_raise_returns_500_cex :
    validate (mkRaw "waiting" "alice@example.com")
        = some (mkWebhook "waiting" "alice@example.com") ∧
    (mkWebhook "waiting" "alice@example.com").payment_status ≠ "confirmed" ∧
    (handle_webhook sinkRaiseEnv 0 (mkRaw "waiting" "alice@example.com") emptyLedger).response
        = errorResponse Exn.discordSendError :=
  ⟨rfl, by decide, rfl⟩

/-- Claim C4 amended: for every syntactically valid notification whose status
is not the literal "confirmed", the handler leaves the ledger unchanged and
invokes neither grantor (nor resolution, nor a ledger write); it returns the
success acknowledgment provided the Discord fanout send does not raise — if
that send raises, the handler returns a 500 instead. -/
theorem nonconfirmed_noop_ack (env : Env) (now : ℚ) (raw : RawPayload)
    (st : Ledger) (w : NowPaymentsWebhook)
    (hv : validate raw = some w) (hnc : w.payment_status ≠ "confirmed") :
    (handle_webhook env now raw st).ledger = st ∧
    (∀ e ∈ (handle_webhook env now raw st).trace, grantOrLedgerEvent e = false) ∧
    (¬(env.dcMsgChannelFound = true ∧ env.dcSendRaises = true) →
       (handle_webhook env now raw st).response = ⟨200, RBody.received⟩) := by
  obtain ⟨e1, e2, e3, e4, e5, e6, e7⟩ := env
  cases e1 <;> cases e3 <;> cases e4 <;>
    simp [handle_webhook, hv, send_telegram_message, send_discord_message, hnc,
      grantOrLedgerEvent]

theorem nonconfirmed_noop_ack_witness :
    validate (mkRaw "waiting" "dave@example.com")
        = some (mkWebhook "waiting" "dave@example.com") ∧
    (mkWebhook "waiting" "dave@example.com").payment_status ≠ "confirmed" ∧
    (handle_webhook okEnv 0 (mkRaw "waiting" "dave@example.com") emptyLedger).ledger
        = emptyLedger ∧
    (¬(okEnv.dcMsgChannelFound = true ∧ okEnv.dcSendRaises = true) →
       (handle_webhook okEnv 0 (mkRaw "waiting" "dave@example.com") emptyLedger).response
         = ⟨200, RBody.received⟩) :=
  ⟨rfl, by decide,
   (nonconfirmed_noop_ack okEnv 0 (mkRaw "waiting" "dave@example.com") emptyLedger
      (mkWebhook "waiting" "dave@example.com") rfl (by decide)).1,
   (nonconfirmed_noop_ack okEnv 0 (mkRaw "waiting" "dave@example.com") emptyLedger
      (mkWebhook "waiting" "dave@example.com") rfl (by decide)).2.2⟩

/-- Claim C5 counterexample: a valid confirmed notification processed while
the Discord fanout channel send raises: the sink failure is NOT swallowed —
it propagates to the caller as the 500 error response, and the confirmed
pipeline (grantors, ledger write) never runs. -/
theorem fanout_failure_propagates_cex :
    validate (confirmedRaw "erin@example.com")
        = some (mkWebhook "confirmed" "erin@example.com") ∧
    (handle_webhook sinkRaiseEnv 0 (confirmedRaw "erin@example.com") emptyLedger).response
        = errorResponse Exn.discordSendError ∧
    (handle_webhook sinkRaiseEnv 0 (confirmedRaw "erin@example.com") emptyLedger).ledger
        "erin@example.com" = none :=
  ⟨rfl, rfl, rfl⟩

/-- Claim C5 amended: for every syntactically valid notification, a Telegram
fanout failure (`TelegramError`) is swallowed and logged — it changes
neither the response nor the ledger, and does not prevent the Discord sink
from being attempted — and a missing Discord channel is likewise only
logged; but an exception raised by the Discord channel send propagates to
the caller as a 500 error response (leaving the ledger unchanged). -/
theorem fanout_sink_failures (env : Env) (now : ℚ) (raw : RawPayload)
    (st : Ledger) (w : NowPaymentsWebhook) (hv : validate raw = some w) :
    ((handle_webhook { env with tgSendMsg := TgOutcome.tgError } now raw st).response
        = (handle_webhook { env with tgSendMsg := TgOutcome.ok } now raw st).response ∧
      (handle_webhook { env with tgSendMsg := TgOutcome.tgError } now raw st).ledger
        = (handle_webhook { env with tgSendMsg := TgOutcome.ok } now raw st).ledger) ∧
    (env.dcMsgChannelFound = true →
      Event.dcSendCall
        ∈ (handle_webhook { env with tgSendMsg := TgOutcome.tgError } now raw st).trace) ∧
    ((handle_webhook { env with dcMsgChannelFound := false } now raw st).response
        = (handle_webhook { env with dcMsgChannelFound := true, dcSendRaises := false }
             now raw st).response ∧
      (handle_webhook { env with dcMsgChannelFound := false } now raw st).ledger
        = (handle_webhook { env with dcMsgChannelFound := true, dcSendRaises := false }
             now raw st).ledger) ∧
    (env.dcMsgChannelFound = true → env.dcSendRaises = true →
      (handle_webhook env now raw st).response = errorResponse Exn.discordSendError ∧
      (handle_webhook env now raw st).ledger = st) := by
  obtain ⟨e1, e2, e3, e4, e5, e6, e7⟩ := env
  cases e2 <;> cases e3 <;> cases e4 <;> cases e5 <;> cases e6 <;> cases e7 <;>
    by_cases hc : w.payment_status = "confirmed" <;>
      simp [handle_webhook, hv, send_telegram_message, send_discord_message,
        give_telegram_access, give_discord_access, hc]

theorem fanout_sink_failures_witness :
    validate (confirmedRaw "frank@example.com")
        = some (mkWebhook "confirmed" "frank@example.com") ∧
    ((handle_webhook { okEnv with tgSendMsg := TgOutcome.tgError } 0
        (confirmedRaw "frank@example.com") emptyLedger).response
      = (handle_webhook { okEnv with tgSendMsg := TgOutcome.ok } 0
          (confirmedRaw "frank@example.com") emptyLedger).response) ∧
    (okEnv.dcMsgChannelFound = true →
      Event.dcSendCall
        ∈ (handle_webhook { okEnv with tgSendMsg := TgOutcome.tgError } 0
            (confirmedRaw "frank@example.com") emptyLedger).trace) :=
  ⟨rfl,
   (fanout_sink_failures okEnv 0 (confirmedRaw "frank@example.com") emptyLedger
      (mkWebhook "confirmed" "frank@example.com") rfl).1.1,
   (fanout_sink_failures okEnv 0 (confirmedRaw "frank@example.com") emptyLedger
      (mkWebhook "confirmed" "frank@example.com") rfl).2.1⟩

/-- Claim C6 counterexample: for the valid confirmed notification for
"carol@example.com", a failure of the Guild-Channel grantor (invite creation
raises) makes the webhook response a 500 failure — contradicting "no grantor
failure causes the webhook response to be a failure". -/
theorem grantor_failure_fails_response_cex :
    validate (confirmedRaw "carol@example.com")
        = some (mkWebhook "confirmed" "carol@example.com") ∧
    (mkWebhook "confirmed" "carol@example.com").payment_status = "confirmed" ∧
    (handle_webhook inviteRaiseEnv 0 (confirmedRaw "carol@example.com") emptyLedger).response
        = errorResponse Exn.discordInviteError :=
  ⟨rfl, rfl, rfl⟩

/-- Claim C6 amended: for every confirmed notification (whose fanout does not
raise), a failure of the Group-Channel (Telegram) grant is swallowed: it
changes neither the response nor the ledger and does not prevent the
Guild-Channel (Discord) grant from being attempted; the Telegram grant
always runs before the Discord grant, so the converse prevention cannot
occur; but a Guild-Channel invite-creation failure is NOT swallowed — it
makes the webhook response the 500 error response. -/
theorem grantor_independence (env : Env) (now : ℚ) (raw : RawPayload)
    (st : Ledger) (w : NowPaymentsWebhook)
    (hv : validate raw = some w) (hc : w.payment_status = "confirmed")
    (hfan : ¬(env.dcMsgChannelFound = true ∧ env.dcSendRaises = true)) :
    ((handle_webhook { env with tgUnban := TgOutcome.tgError } now raw st).response
        = (handle_webhook { env with tgUnban := TgOutcome.ok } now raw st).response ∧
      (handle_webhook { env with tgUnban := TgOutcome.tgError } now raw st).ledger
        = (handle_webhook { env with tgUnban := TgOutcome.ok } now raw st).ledger ∧
      Event.dcGetGuildCall
        ∈ (handle_webhook { env with tgUnban := TgOutcome.tgError } now raw st).trace) ∧
    (env.dcGuildFound = true → env.dcGuildChannelFound = true →
      env.dcInviteRaises = true →
      (handle_webhook env now raw st).response = errorResponse Exn.discordInviteError) := by
  obtain ⟨e1, e2, e3, e4, e5, e6, e7⟩ := env
  cases e2 <;> cases e3 <;> cases e4 <;> cases e5 <;> cases e6 <;> cases e7 <;>
    simp_all [handle_webhook, hv, send_telegram_message, send_discord_message,
      give_telegram_access, give_discord_access, hc]

theorem grantor_independence_witness :
    validate (confirmedRaw "grace@example.com")
        = some (mkWebhook "confirmed" "grace@example.com") ∧
    ((handle_webhook { okEnv with tgUnban := TgOutcome.tgError } 0
        (confirmedRaw "grace@example.com") emptyLedger).response
      = (handle_webhook { okEnv with tgUnban := TgOutcome.ok } 0
          (confirmedRaw "grace@example.com") emptyLedger).response ∧
     (handle_webhook { okEnv with tgUnban := TgOutcome.tgError } 0
        (confirmedRaw "grace@example.com") emptyLedger).ledger
      = (handle_webhook { okEnv with tgUnban := TgOutcome.ok } 0
          (confirmedRaw "grace@example.com") emptyLedger).ledger ∧
     Event.dcGetGuildCall
       ∈ (handle_webhook { okEnv with tgUnban := TgOutcome.tgError } 0
           (confirmedRaw "grace@example.com") emptyLedger).trace) :=
  ⟨rfl,
   (grantor_independence okEnv 0 (confirmedRaw "grace@example.com") emptyLedger
      (mkWebhook "confirmed" "grace@example.com") rfl rfl (by decide)).1⟩

/-- Claim C9 counterexample: the confirmed notification whose
`order_description` is the empty string passes pydantic validation, the
grantors run for the empty subject, and the ledger gains an entry for the
empty key — contradicting "empty or missing is a validation failure with no
grant and no ledger entry". -/
theorem empty_subject_not_validation_failure_cex :
    validate (confirmedRaw "") = some (mkWebhook "confirmed" "") ∧
    (handle_webhook okEnv 0 (confirmedRaw "") emptyLedger).ledger ""
        = some ⟨true, 0⟩ ∧
    Event.tgUnbanCall 123456789
      ∈ (handle_webhook okEnv 0 (confirmedRaw "") emptyLedger).trace := by
  refine ⟨rfl, rfl, ?_⟩
  decide

/-- Claim C9 amended: a MISSING `order_description` field is a validation
failure and the handler performs no side effects; but an EMPTY-string
`order_description` passes validation and a confirmed notification for it is
processed like any other subject: identity resolution and the grantors run
for `""` and (when no uncaught Discord exception is raised) the ledger gains
an entry under the empty-string key with `paid = true`. -/
theorem empty_subject_processed_missing_rejected (env : Env) (now : ℚ) (st : Ledger) :
    (∀ raw : RawPayload, raw.order_description = none →
        handle_webhook env now raw st = ⟨st, [], errorResponse Exn.validationError⟩) ∧
    (∀ (raw : RawPayload) (w : NowPaymentsWebhook), validate raw = some w →
        w.payment_status = "confirmed" → w.order_description = "" →
        ¬(env.dcMsgChannelFound = true ∧ env.dcSendRaises = true) →
        ¬(env.dcGuildFound = true ∧ env.dcGuildChannelFound = true ∧
            env.dcInviteRaises = true) →
        (handle_webhook env now raw st).ledger "" = some ⟨true, now⟩ ∧
        Event.resolveCall "" ∈ (handle_webhook env now raw st).trace) := by
  obtain ⟨e1, e2, e3, e4, e5, e6, e7⟩ := env
  constructor
  · intro raw h
    have hv := validate_missing_desc raw h
    unfold handle_webhook
    rw [hv]
  · intro raw w hv hc hod hsend hinvite
    cases e2 <;> cases e3 <;> cases e4 <;> cases e5 <;> cases e6 <;> cases e7 <;>
      simp_all [handle_webhook, send_telegram_message, send_discord_message,
        give_telegram_access, give_discord_access, get_telegram_user_id,
        Ledger.upsert]

theorem empty_subject_processed_missing_rejected_witness :
    handle_webhook okEnv 0 missingDescRaw emptyLedger
        = ⟨emptyLedger, [], errorResponse Exn.validationError⟩ ∧
    (handle_webhook okEnv 0 (confirmedRaw "") emptyLedger).ledger ""
        = some ⟨true, 0⟩ :=
  ⟨(empty_subject_processed_missing_rejected okEnv 0 emptyLedger).1 missingDescRaw rfl,
   ((empty_subject_processed_missing_rejected okEnv 0 emptyLedger).2 (confirmedRaw "")
      (mkWebhook "confirmed" "") rfl rfl rfl (by decide) (by decide)).1⟩

end ProfitPilot
